import Mathlib

/-!
Verification of the binary codec in `src/bls12_381/serde_impl.rs` of the
`pairing` crate: serde `Serialize`/`Deserialize` implementations for the
BLS12-381 scalar field `Fr`, base field `Fq`, their raw representations
`FrRepr`/`FqRepr`, and the group elements `G1`, `G1Affine`, `G2`, `G2Affine`.

The file shallowly embeds the codec layer of `serde_impl.rs` directly.  The
field-arithmetic and curve-arithmetic collaborators (`PrimeFieldRepr::write_be`
and `read_be`, `PrimeField::from_repr` and `into_repr`, and the curve-point
compression capability) live in the crate outside the provided sources and are
modelled from the specification, each marked `Modelled from the spec:` in its
doc comment.

Field elements and their fixed-width representations are modelled as natural
numbers (the unsigned integer a representation denotes); byte sequences are
lists of naturals below 256; fallible operations return `Except String` so the
error-message strings of the source are preserved exactly.
-/

set_option autoImplicit false

/-- Error message for a wrong-length group-element input (`ERR_LEN` in the source). -/
def ERR_LEN : String := "wrong length of deserialized group element"

/-- Error message for bytes that do not decode to a group element (`ERR_CODE` in the source). -/
def ERR_CODE : String := "deserialized bytes don't encode a group element"

/-- Error message for a failing byte-vector read or write (`ERR_IO` in the source). -/
def ERR_IO_STR : String := "error writing to a byte vector"

/-- Big-endian byte emission: the `width` big-endian bytes of `n` (most
significant first, truncated to `width` bytes). -/
def natToBytesBE : Nat → Nat → List Nat
  | 0, _ => []
  | w + 1, n => natToBytesBE w (n / 256) ++ [n % 256]

/-- Big-endian byte parsing: the unsigned integer a big-endian byte list denotes. -/
def bytesToNatBE (bs : List Nat) : Nat :=
  bs.foldl (fun a b => 256 * a + b) 0

/-- Modelled from the spec: `PrimeFieldRepr::write_be` (crate root, not under
`src/`), §4.1: converts the canonical fixed-width representation to big-endian
bytes of exactly the field's fixed width; never fails. `width` is in bytes
(word count times word size). -/
def write_be (width value : Nat) : List Nat :=
  natToBytesBE width value

/-- Modelled from the spec: `PrimeFieldRepr::read_be` (crate root, not under
`src/`), §4.1 `decode_repr`: parses a big-endian byte sequence into the raw
representation without range validation; fails only on length mismatch. -/
def read_be (width : Nat) (bytes : List Nat) : Except String Nat :=
  if bytes.length = width then Except.ok (bytesToNatBE bytes) else Except.error "length mismatch"

/-- Embeds `serialize_prime_field_repr` of the source: writes the
representation big-endian into a fresh byte vector (the write into a growable
vector cannot fail, so the source's `ERR_IO` branch is unreachable and the
embedding is total). -/
def serialize_prime_field_repr (width value : Nat) : List Nat :=
  write_be width value

/-- Embeds `deserialize_prime_field_repr` of the source: reads the byte
sequence big-endian into the representation, mapping any `read_be` failure to
the `ERR_IO` message. -/
def deserialize_prime_field_repr (width : Nat) (bytes : List Nat) : Except String Nat :=
  match read_be width bytes with
  | Except.ok v => Except.ok v
  | Except.error _ => Except.error ERR_IO_STR

/-- Modelled from the spec: the modulus of the 4-word scalar field `Fr` of the
BLS12-381 module (`fr.rs`, not under `src/`). -/
def frModulus : Nat :=
  0x73eda753299d7d483339d80809a1d80553bda402fffe5bfeffffffff00000001

/-- Modelled from the spec: the modulus of the 6-word base field `Fq` of the
BLS12-381 module (`fq.rs`, not under `src/`). -/
def fqModulus : Nat :=
  0x1a0111ea397fe69a4b1ba7b6434bacd764774b84f38512bf6730d2a0f6b0f6241eabfffeb153ffffb9feffffffffaaab

/-- Byte width of the 4-word representation `FrRepr`: 4 words times 8 bytes. -/
def frWidth : Nat := 32

/-- Byte width of the 6-word representation `FqRepr`: 6 words times 8 bytes. -/
def fqWidth : Nat := 48

/-- Modelled from the spec: `PrimeField::from_repr` (crate root, not under
`src/`), §4.1: promotion of a raw representation to a field element via the
reduction check; succeeds exactly when the represented integer is below the
modulus. -/
def from_repr (modulus value : Nat) : Except String Nat :=
  if value < modulus then Except.ok value else Except.error "representation is not in the field"

/-- Modelled from the spec: `PrimeField::into_repr` (crate root, not under
`src/`): the canonical fixed-width representation of a field element, whose
represented integer is the element's value. -/
def into_repr (value : Nat) : Nat :=
  value

/-- Embeds `Serialize for FrRepr` of the source. -/
def serializeFrRepr (v : Nat) : List Nat :=
  serialize_prime_field_repr frWidth v

/-- Embeds `Deserialize for FrRepr` of the source. -/
def deserializeFrRepr (bytes : List Nat) : Except String Nat :=
  deserialize_prime_field_repr frWidth bytes

/-- Embeds `Serialize for FqRepr` of the source. -/
def serializeFqRepr (v : Nat) : List Nat :=
  serialize_prime_field_repr fqWidth v

/-- Embeds `Deserialize for FqRepr` of the source. -/
def deserializeFqRepr (bytes : List Nat) : Except String Nat :=
  deserialize_prime_field_repr fqWidth bytes

/-- Embeds `Serialize for Fr` of the source: convert to the canonical
representation, then serialize that representation. -/
def serializeFr (f : Nat) : List Nat :=
  serializeFrRepr (into_repr f)

/-- Embeds `Deserialize for Fr` of the source: deserialize the representation,
then promote with `from_repr`, mapping a promotion failure to `ERR_CODE`. -/
def deserializeFr (bytes : List Nat) : Except String Nat :=
  match deserializeFrRepr bytes with
  | Except.error e => Except.error e
  | Except.ok repr =>
    match from_repr frModulus repr with
    | Except.ok f => Except.ok f
    | Except.error _ => Except.error ERR_CODE

/-- Embeds `Serialize for Fq` of the source. -/
def serializeFq (f : Nat) : List Nat :=
  serializeFqRepr (into_repr f)

/-- Embeds `Deserialize for Fq` of the source. -/
def deserializeFq (bytes : List Nat) : Except String Nat :=
  match deserializeFqRepr bytes with
  | Except.error e => Except.error e
  | Except.ok repr =>
    match from_repr fqModulus repr with
    | Except.ok f => Except.ok f
    | Except.error _ => Except.error ERR_CODE

/-- Modelled from the spec: the external curve-point capability of §4.2 and §6
(`CurveAffine`, `CurveProjective` and `EncodedPoint` instantiated by the
BLS12-381 `ec.rs`, not under `src/`): a compressed size constant, total
compression producing exactly `size` bytes, fallible decompression that inverts
compression, the affine/projective conversions, and the point at infinity. -/
structure CurveCapability (Aff Proj : Type) where
  size : Nat
  into_compressed : Aff → List Nat
  decompress : List Nat → Except String Aff
  into_affine : Proj → Aff
  into_projective : Aff → Proj
  infinity : Aff
  compress_length : ∀ p, (into_compressed p).length = size
  decompress_compress : ∀ p, decompress (into_compressed p) = Except.ok p

/-- Embeds `serialize_affine` of the source: serialize the compressed
representation of the point as a byte sequence. -/
def serialize_affine {Aff Proj : Type} (cap : CurveCapability Aff Proj) (c : Aff) : List Nat :=
  cap.into_compressed c

/-- Embeds `deserialize_affine` of the source: deserialize a byte vector, fail
with `ERR_LEN` unless its length equals the compressed size, copy it into the
fixed-size compressed buffer, and decompress, mapping any decompression failure
to `ERR_CODE`. -/
def deserialize_affine {Aff Proj : Type} (cap : CurveCapability Aff Proj)
    (bytes : List Nat) : Except String Aff :=
  if bytes.length ≠ cap.size then Except.error ERR_LEN
  else
    match cap.decompress bytes with
    | Except.ok p => Except.ok p
    | Except.error _ => Except.error ERR_CODE

/-- Embeds `Serialize for G1` and `Serialize for G2` of the source: convert the
projective point to affine, then serialize the affine point. -/
def serialize_projective {Aff Proj : Type} (cap : CurveCapability Aff Proj) (g : Proj) : List Nat :=
  serialize_affine cap (cap.into_affine g)

/-- Embeds `Deserialize for G1` and `Deserialize for G2` of the source:
deserialize an affine point, then convert it to projective. -/
def deserialize_projective {Aff Proj : Type} (cap : CurveCapability Aff Proj)
    (bytes : List Nat) : Except String Proj :=
  match deserialize_affine cap bytes with
  | Except.ok a => Except.ok (cap.into_projective a)
  | Except.error e => Except.error e

/-- Concrete two-point instance of the curve capability, used only to evaluate
the universally quantified theorems at explicit inputs: `false` plays the point
at infinity, `true` the one finite point; the compressed size is 48 bytes, the
G1 compressed size. -/
def mockCap : CurveCapability Bool Bool where
  size := 48
  into_compressed p := List.replicate 47 0 ++ [if p then 1 else 0]
  decompress bs :=
    if bs = List.replicate 47 0 ++ [0] then Except.ok false
    else if bs = List.replicate 47 0 ++ [1] then Except.ok true
    else Except.error "invalid point encoding"
  into_affine := id
  into_projective := id
  infinity := false
  compress_length := by intro p; cases p <;> decide
  decompress_compress := by intro p; cases p <;> rfl

theorem natToBytesBE_length (w : Nat) : ∀ n : Nat, (natToBytesBE w n).length = w := by
  induction w with
  | zero => intro n; rfl
  | succ w ih =>
    intro n
    simp [natToBytesBE, ih]

theorem bytesToNatBE_concat (bs : List Nat) (b : Nat) :
    bytesToNatBE (bs ++ [b]) = 256 * bytesToNatBE bs + b := by
  simp [bytesToNatBE, List.foldl_append]

theorem bytesToNatBE_natToBytesBE (w : Nat) :
    ∀ n : Nat, n < 256 ^ w → bytesToNatBE (natToBytesBE w n) = n := by
  induction w with
  | zero =>
    intro n hn
    interval_cases n
    rfl
  | succ w ih =>
    intro n hn
    have hdiv : n / 256 < 256 ^ w := by
      rw [Nat.div_lt_iff_lt_mul (by norm_num)]
      calc n < 256 ^ (w + 1) := hn
        _ = 256 ^ w * 256 := by rw [pow_succ]
    rw [natToBytesBE, bytesToNatBE_concat, ih _ hdiv]
    exact Nat.div_add_mod n 256

theorem deserialize_serialize_repr (width v : Nat) (hv : v < 256 ^ width) :
    deserialize_prime_field_repr width (serialize_prime_field_repr width v) = Except.ok v := by
  simp [deserialize_prime_field_repr, serialize_prime_field_repr, read_be, write_be,
    natToBytesBE_length, bytesToNatBE_natToBytesBE width v hv]

/-- C1: group-element decode of any byte sequence whose length is not the
group's compressed size fails with the `LengthError` message
"wrong length of deserialized group element", for affine and projective decode
alike; the failure depends only on the length, not on the content and not on
the decompression routine (the statement holds for every capability, hence
before decompression is consulted). -/
theorem c1_group_length_rejection {Aff Proj : Type} (cap : CurveCapability Aff Proj)
    (bytes : List Nat) (h : bytes.length ≠ cap.size) :
    deserialize_affine cap bytes = Except.error ERR_LEN ∧
    deserialize_projective cap bytes = Except.error ERR_LEN := by
  have h1 : deserialize_affine cap bytes = Except.error ERR_LEN := by
    simp [deserialize_affine, h]
  exact ⟨h1, by simp [deserialize_projective, h1]⟩

theorem c1_witness :
    (List.replicate 47 (1 : Nat)).length ≠ mockCap.size ∧
    (deserialize_affine mockCap (List.replicate 47 1) = Except.error ERR_LEN ∧
     deserialize_projective mockCap (List.replicate 47 1) = Except.error ERR_LEN) :=
  ⟨by decide, c1_group_length_rejection mockCap (List.replicate 47 1) (by decide)⟩

/-- C2: group-element decode of a correct-length byte sequence on which
decompression fails, for whatever internal reason, fails with the single
uniform `InvalidEncoding` message "deserialized bytes don't encode a group
element": the internal reason `e` does not appear in the result, no point is
returned, and the decode does not panic (the embedding is a total function
into `Except`). -/
theorem c2_group_invalid_encoding {Aff Proj : Type} (cap : CurveCapability Aff Proj)
    (bytes : List Nat) (e : String) (hlen : bytes.length = cap.size)
    (hfail : cap.decompress bytes = Except.error e) :
    deserialize_affine cap bytes = Except.error ERR_CODE ∧
    deserialize_projective cap bytes = Except.error ERR_CODE := by
  have h1 : deserialize_affine cap bytes = Except.error ERR_CODE := by
    simp [deserialize_affine, hlen, hfail]
  exact ⟨h1, by simp [deserialize_projective, h1]⟩

theorem c2_witness :
    ((List.replicate 48 (1 : Nat)).length = mockCap.size ∧
     mockCap.decompress (List.replicate 48 1) = Except.error "invalid point encoding") ∧
    (deserialize_affine mockCap (List.replicate 48 1) = Except.error ERR_CODE ∧
     deserialize_projective mockCap (List.replicate 48 1) = Except.error ERR_CODE) :=
  ⟨⟨rfl, rfl⟩, c2_group_invalid_encoding mockCap (List.replicate 48 1) "invalid point encoding" rfl rfl⟩

/-- C5: decoding the encoding of a valid group element succeeds, in affine and
in projective form; a projective element decodes to its affine normal form
promoted back to projective; the point at infinity round-trips through its own
compressed pattern, and that pattern differs from the encoding of every finite
point. -/
theorem c5_group_roundtrip {Aff Proj : Type} (cap : CurveCapability Aff Proj)
    (p : Aff) (g : Proj) (hp : p ≠ cap.infinity) :
    deserialize_affine cap (serialize_affine cap p) = Except.ok p ∧
    deserialize_projective cap (serialize_projective cap g)
      = Except.ok (cap.into_projective (cap.into_affine g)) ∧
    deserialize_affine cap (serialize_affine cap cap.infinity) = Except.ok cap.infinity ∧
    serialize_affine cap p ≠ serialize_affine cap cap.infinity := by
  have hrt : ∀ q : Aff, deserialize_affine cap (serialize_affine cap q) = Except.ok q := by
    intro q
    simp [deserialize_affine, serialize_affine, cap.compress_length, cap.decompress_compress]
  refine ⟨hrt p, ?_, hrt cap.infinity, ?_⟩
  · simp [deserialize_projective, serialize_projective, hrt]
  · intro hc
    simp only [serialize_affine] at hc
    have hinj := cap.decompress_compress p
    rw [hc, cap.decompress_compress cap.infinity] at hinj
    exact hp (Except.ok.inj hinj).symm

theorem c5_witness :
    (true ≠ mockCap.infinity) ∧
    (deserialize_affine mockCap (serialize_affine mockCap true) = Except.ok true ∧
     deserialize_projective mockCap (serialize_projective mockCap true)
       = Except.ok (mockCap.into_projective (mockCap.into_affine true)) ∧
     deserialize_affine mockCap (serialize_affine mockCap mockCap.infinity)
       = Except.ok mockCap.infinity ∧
     serialize_affine mockCap true ≠ serialize_affine mockCap mockCap.infinity) :=
  ⟨by decide, c5_group_roundtrip mockCap true true (by decide)⟩

/-- C4: decoding the encoding of a valid field element (a value below the
field's modulus) succeeds and returns the same element, for the scalar field
`Fr` and the base field `Fq`. -/
theorem c4_field_roundtrip (f g : Nat) (hf : f < frModulus) (hg : g < fqModulus) :
    deserializeFr (serializeFr f) = Except.ok f ∧
    deserializeFq (serializeFq g) = Except.ok g := by
  have hr1 : deserializeFrRepr (serializeFrRepr f) = Except.ok f :=
    deserialize_serialize_repr frWidth f (hf.trans (by decide))
  have hr2 : deserializeFqRepr (serializeFqRepr g) = Except.ok g :=
    deserialize_serialize_repr fqWidth g (hg.trans (by decide))
  constructor
  · simp [deserializeFr, serializeFr, into_repr, hr1, from_repr, hf]
  · simp [deserializeFq, serializeFq, into_repr, hr2, from_repr, hg]

theorem c4_witness :
    ((1 : Nat) < frModulus ∧ (1 : Nat) < fqModulus) ∧
    (deserializeFr (serializeFr 1) = Except.ok 1 ∧
     deserializeFq (serializeFq 1) = Except.ok 1) :=
  ⟨⟨by decide, by decide⟩, c4_field_roundtrip 1 1 (by decide) (by decide)⟩

/-- C7: encoding a field element always produces a byte sequence of exactly the
field's fixed width (32 bytes for `Fr`, 48 bytes for `Fq`), and the bytes are
the big-endian digits of the element's canonical representation (parsing them
back big-endian recovers the value); the embedding of the encoder is a total
function, so encoding never fails. -/
theorem c7_encode_fixed_width (f g : Nat) (hf : f < frModulus) (hg : g < fqModulus) :
    (serializeFr f).length = 32 ∧ (serializeFq g).length = 48 ∧
    bytesToNatBE (serializeFr f) = f ∧ bytesToNatBE (serializeFq g) = g := by
  refine ⟨natToBytesBE_length 32 f, natToBytesBE_length 48 g, ?_, ?_⟩
  · exact bytesToNatBE_natToBytesBE 32 f (hf.trans (by decide))
  · exact bytesToNatBE_natToBytesBE 48 g (hg.trans (by decide))

theorem c7_witness :
    ((2 : Nat) < frModulus ∧ (3 : Nat) < fqModulus) ∧
    ((serializeFr 2).length = 32 ∧ (serializeFq 3).length = 48 ∧
     bytesToNatBE (serializeFr 2) = 2 ∧ bytesToNatBE (serializeFq 3) = 3) :=
  ⟨⟨by decide, by decide⟩, c7_encode_fixed_width 2 3 (by decide) (by decide)⟩

/-- C8: encoding the scalar-field element 1 yields 31 zero bytes followed by
the byte 0x01, and decoding that exact 32-byte sequence returns 1. -/
theorem c8_scalar_one_scenario :
    serializeFr 1 = List.replicate 31 0 ++ [1] ∧
    deserializeFr (List.replicate 31 0 ++ [1]) = Except.ok 1 :=
  ⟨by decide, rfl⟩

/-- C9: encoding is deterministic for every serializable kind — the affine and
projective group encoders (instantiated by both `G1` and `G2` through their
capabilities) and the `Fr`, `Fq`, `FrRepr`, `FqRepr` encoders are functions of
the value alone, so two encodings of the same value are byte-identical. -/
theorem c9_encoding_deterministic {Aff Proj : Type} (cap : CurveCapability Aff Proj)
    (a a' : Aff) (g g' : Proj) (f f' q q' vr vr' vq vq' : Nat)
    (ha : a = a') (hg : g = g') (hf : f = f') (hq : q = q')
    (hvr : vr = vr') (hvq : vq = vq') :
    serialize_affine cap a = serialize_affine cap a' ∧
    serialize_projective cap g = serialize_projective cap g' ∧
    serializeFr f = serializeFr f' ∧
    serializeFq q = serializeFq q' ∧
    serializeFrRepr vr = serializeFrRepr vr' ∧
    serializeFqRepr vq = serializeFqRepr vq' := by
  subst ha hg hf hq hvr hvq
  exact ⟨rfl, rfl, rfl, rfl, rfl, rfl⟩

theorem c9_witness :
    (true = true ∧ false = false ∧ (1 : Nat) = 1 ∧ (2 : Nat) = 2 ∧
      (3 : Nat) = 3 ∧ (4 : Nat) = 4) ∧
    (serialize_affine mockCap true = serialize_affine mockCap true ∧
     serialize_projective mockCap false = serialize_projective mockCap false ∧
     serializeFr 1 = serializeFr 1 ∧
     serializeFq 2 = serializeFq 2 ∧
     serializeFrRepr 3 = serializeFrRepr 3 ∧
     serializeFqRepr 4 = serializeFqRepr 4) :=
  ⟨⟨rfl, rfl, rfl, rfl, rfl, rfl⟩,
   c9_encoding_deterministic mockCap true true false false 1 1 2 2 3 3 4 4
     rfl rfl rfl rfl rfl rfl⟩

/-- C10: deserializing a raw field representation performs no range validation:
every 4-word value (below 256^32) and every 6-word value (below 256^48),
including values at or above the respective field modulus, is accepted and
round-trips bit-identically through the representation codec. -/
theorem c10_repr_no_range_check (v w : Nat) (hv : v < 256 ^ 32) (hw : w < 256 ^ 48) :
    deserializeFrRepr (serializeFrRepr v) = Except.ok v ∧
    deserializeFqRepr (serializeFqRepr w) = Except.ok w :=
  ⟨deserialize_serialize_repr frWidth v hv, deserialize_serialize_repr fqWidth w hw⟩

theorem c10_witness :
    (frModulus < 256 ^ 32 ∧ fqModulus < 256 ^ 48) ∧
    (deserializeFrRepr (serializeFrRepr frModulus) = Except.ok frModulus ∧
     deserializeFqRepr (serializeFqRepr fqModulus) = Except.ok fqModulus) :=
  ⟨⟨by decide, by decide⟩,
   c10_repr_no_range_check frModulus fqModulus (by decide) (by decide)⟩

/-- C3, counterexample: decoding the 32-byte big-endian encoding of the scalar
modulus itself (an integer equal to, hence not below, the modulus) fails with
the message `ERR_CODE` — "deserialized bytes don't encode a group element" —
which is exactly the message group-element decode uses for an invalid encoding
(third conjunct), so the failure is not a distinct `InvalidFieldValue` kind;
the same holds for the base field. -/
theorem c3_counterexample :
    deserializeFr (natToBytesBE 32 frModulus) = Except.error ERR_CODE ∧
    deserializeFq (natToBytesBE 48 fqModulus) = Except.error ERR_CODE ∧
    deserialize_affine mockCap (List.replicate 48 2) = Except.error ERR_CODE :=
  ⟨rfl, rfl, rfl⟩

/-- C3, amended: a correct-width byte sequence encoding an integer at or above
the field modulus is rejected by bare field-element decode (`Fr` and `Fq`),
but the error carries the same `InvalidEncoding` message as group elements
("deserialized bytes don't encode a group element"), not a distinct
`InvalidFieldValue` kind. -/
theorem c3_field_overflow_rejected (bsR bsQ : List Nat)
    (hR : bsR.length = 32) (hQ : bsQ.length = 48)
    (hgeR : frModulus ≤ bytesToNatBE bsR) (hgeQ : fqModulus ≤ bytesToNatBE bsQ) :
    deserializeFr bsR = Except.error ERR_CODE ∧
    deserializeFq bsQ = Except.error ERR_CODE := by
  have hR' : ¬ bytesToNatBE bsR < frModulus := Nat.not_lt.mpr hgeR
  have hQ' : ¬ bytesToNatBE bsQ < fqModulus := Nat.not_lt.mpr hgeQ
  constructor
  · simp [deserializeFr, deserializeFrRepr, deserialize_prime_field_repr, read_be, frWidth,
      hR, from_repr, hR']
  · simp [deserializeFq, deserializeFqRepr, deserialize_prime_field_repr, read_be, fqWidth,
      hQ, from_repr, hQ']

theorem c3_witness :
    ((natToBytesBE 32 frModulus).length = 32 ∧ (natToBytesBE 48 fqModulus).length = 48 ∧
     frModulus ≤ bytesToNatBE (natToBytesBE 32 frModulus) ∧
     fqModulus ≤ bytesToNatBE (natToBytesBE 48 fqModulus)) ∧
    (deserializeFr (natToBytesBE 32 frModulus) = Except.error ERR_CODE ∧
     deserializeFq (natToBytesBE 48 fqModulus) = Except.error ERR_CODE) :=
  ⟨⟨by decide, by decide, by decide, by decide⟩,
   c3_field_overflow_rejected (natToBytesBE 32 frModulus) (natToBytesBE 48 fqModulus)
     (by decide) (by decide) (by decide) (by decide)⟩

/-- C6, counterexample: decoding a 31-byte sequence as a 32-byte scalar-field
representation fails, but with the message `ERR_IO` — "error writing to a byte
vector" — not the `LengthError` message "wrong length of deserialized group
element" used to report length mismatches elsewhere in this codec. -/
theorem c6_counterexample :
    deserializeFrRepr (List.replicate 31 0) = Except.error ERR_IO_STR ∧
    ERR_IO_STR ≠ ERR_LEN :=
  ⟨rfl, by decide⟩

/-- C6, amended: field-element decode (`Fr`, `Fq`, `FrRepr`, `FqRepr`) of a
byte sequence whose length differs from the field's fixed width (32 bytes for
the 4-word scalar field, 48 bytes for the 6-word base field) fails without
producing any partial result, but the failure carries the representation
reader's `ERR_IO` message ("error writing to a byte vector"), not a
`LengthError`. -/
theorem c6_field_length_rejected (bsR bsQ : List Nat)
    (hR : bsR.length ≠ 32) (hQ : bsQ.length ≠ 48) :
    deserializeFrRepr bsR = Except.error ERR_IO_STR ∧
    deserializeFr bsR = Except.error ERR_IO_STR ∧
    deserializeFqRepr bsQ = Except.error ERR_IO_STR ∧
    deserializeFq bsQ = Except.error ERR_IO_STR := by
  have h1 : deserializeFrRepr bsR = Except.error ERR_IO_STR := by
    simp [deserializeFrRepr, deserialize_prime_field_repr, read_be, frWidth, hR]
  have h2 : deserializeFqRepr bsQ = Except.error ERR_IO_STR := by
    simp [deserializeFqRepr, deserialize_prime_field_repr, read_be, fqWidth, hQ]
  exact ⟨h1, by simp [deserializeFr, h1], h2, by simp [deserializeFq, h2]⟩

theorem c6_witness :
    ((List.replicate 33 (0 : Nat)).length ≠ 32 ∧ (List.replicate 49 (0 : Nat)).length ≠ 48) ∧
    (deserializeFrRepr (List.replicate 33 0) = Except.error ERR_IO_STR ∧
     deserializeFr (List.replicate 33 0) = Except.error ERR_IO_STR ∧
     deserializeFqRepr (List.replicate 49 0) = Except.error ERR_IO_STR ∧
     deserializeFq (List.replicate 49 0) = Except.error ERR_IO_STR) :=
  ⟨⟨by decide, by decide⟩,
   c6_field_length_rejected (List.replicate 33 0) (List.replicate 49 0) (by decide) (by decide)⟩
